import Mathlib

/-!
Shallow embedding of the "face" repository (Smart Emotion Mirror): a browser
app that periodically captures a webcam frame, sends it to a remote model
(`src/services/geminiService.ts`), stores the typed result in React state
(`src/App.tsx`), derives the visual theme from it, and speaks the encouraging
message (`src/hooks/useSpeechSynthesis.ts`).

External effects (the network call, JSON parsing, the canvas, speech
synthesis) are modelled as explicit inputs and emitted events; React state
updates become explicit state passing over `AppState`.
-/

namespace FaceApp

/-- The `Emotion` enum of `src/types.ts` (eight members, declaration order). -/
inductive Emotion where
  | HAPPY
  | SAD
  | STRESSED
  | FOCUSED
  | TIRED
  | NEUTRAL
  | SURPRISED
  | ANGRY
deriving DecidableEq

/-- The string value of an `Emotion` enum member (in TS each member is the
string of its own name, e.g. `HAPPY = "HAPPY"`). -/
def Emotion.toKey : Emotion → String
  | .HAPPY => "HAPPY"
  | .SAD => "SAD"
  | .STRESSED => "STRESSED"
  | .FOCUSED => "FOCUSED"
  | .TIRED => "TIRED"
  | .NEUTRAL => "NEUTRAL"
  | .SURPRISED => "SURPRISED"
  | .ANGRY => "ANGRY"

/-- `Object.values(Emotion)` in `src/services/geminiService.ts`: the eight
string values in declaration order. -/
def emotionValues : List String :=
  ["HAPPY", "SAD", "STRESSED", "FOCUSED", "TIRED", "NEUTRAL", "SURPRISED", "ANGRY"]

/-- The runtime shape of the value `analyzeImage` returns. The TS interface
`AnalysisResult` (`src/types.ts`) declares four non-optional fields, but the
value is produced by `JSON.parse` followed by an unchecked cast
(`result as AnalysisResult`), so at runtime the three string fields are
whatever the parsed JSON object held and may be absent (`Option`); only
`emotion` is always a string, because the validation branch rewrites it. -/
structure AnalysisResult where
  emotion : String
  environmentAnalysis : Option String
  encouragingMessage : Option String
  productivityTip : Option String
deriving DecidableEq

/-- A JSON object produced by `JSON.parse(response.text.trim())` in
`analyzeImage`, before any validation: each of the four schema fields is
present (`some`) or absent (`none`). -/
structure RawResult where
  emotion : Option String
  environmentAnalysis : Option String
  encouragingMessage : Option String
  productivityTip : Option String
deriving DecidableEq

/-- The observable outcome of one remote call in `analyzeImage`:
`networkError` models `ai.models.generateContent` throwing (network/API
failure, with the underlying raw message), `malformedJson` models
`JSON.parse` throwing on the response text, and `parsed` carries the parsed
JSON object. -/
inductive ModelOutcome where
  | networkError (rawMessage : String)
  | malformedJson (rawMessage : String)
  | parsed (raw : RawResult)
deriving DecidableEq

/-- The single fixed error message of the `catch` block of `analyzeImage`
(`src/services/geminiService.ts` line 74). -/
def failedAnalysisMessage : String :=
  "Failed to get analysis from Gemini API. Please check your API key and network connection."

/-- Lines 66-69 of `src/services/geminiService.ts`:
`if (!emotionValues.includes(result.emotion)) result.emotion = NEUTRAL`.
A missing `emotion` field (JS `undefined`) also fails `includes` and is
replaced by `"NEUTRAL"`. -/
def validateEmotion : Option String → String
  | some s => if emotionValues.contains s then s else "NEUTRAL"
  | none => "NEUTRAL"

/-- `analyzeImage` of `src/services/geminiService.ts`, as a function of the
remote call's outcome. Any throw inside the `try` block (network failure,
malformed JSON) is caught and rethrown as the fixed message; a parsed
response has its `emotion` field validated and is returned as-is otherwise
(the cast `result as AnalysisResult` checks nothing). -/
def analyzeImage : ModelOutcome → Except String AnalysisResult
  | .networkError _ => .error failedAnalysisMessage
  | .malformedJson _ => .error failedAnalysisMessage
  | .parsed raw =>
      .ok { emotion := validateEmotion raw.emotion,
            environmentAnalysis := raw.environmentAnalysis,
            encouragingMessage := raw.encouragingMessage,
            productivityTip := raw.productivityTip }

/-! ## Speech synthesis hook (`src/hooks/useSpeechSynthesis.ts`) -/

/-- A `SpeechSynthesisVoice`: only `name` and `lang` are inspected. -/
structure Voice where
  name : String
  lang : String
deriving DecidableEq

/-- JS `String.prototype.includes`: `s.includes(pat)` is true iff `pat`
occurs as a substring of `s` (always true for the empty pattern). Modelled
via `splitOn`: a non-empty pattern occurs in `s` iff splitting on it yields
at least two pieces. -/
def jsIncludes (s pat : String) : Bool :=
  (pat == "") || decide (2 ≤ (s.splitOn pat).length)

/-- Predicate of the first `find` on line 38:
`voice.name.includes('Google') && voice.lang.startsWith('en')`. -/
def googleEnVoice (v : Voice) : Bool :=
  jsIncludes v.name "Google" && v.lang.startsWith "en"

/-- Predicate of the second `find` on line 39: `voice.lang.startsWith('en-US')`. -/
def enUSVoice (v : Voice) : Bool :=
  v.lang.startsWith "en-US"

/-- Predicate of the third `find` on line 40: `voice.lang.startsWith('en')`. -/
def enVoice (v : Voice) : Bool :=
  v.lang.startsWith "en"

/-- Lines 38-40 of `src/hooks/useSpeechSynthesis.ts`: the `find`/`||` chain
selecting `preferredVoice` (JS `find` returns the first match or `undefined`,
and `||` falls through on `undefined`). -/
def preferredVoice (voices : List Voice) : Option Voice :=
  (voices.find? googleEnVoice).orElse (fun _ =>
    (voices.find? enUSVoice).orElse (fun _ =>
      voices.find? enVoice))

/-- Spec-side restatement of the voice preference order, written from the
spec's words ("picks the FIRST voice whose name contains 'Google' with a
language starting 'en'; otherwise the first ..."): the first element of each
filtered sublist, in preference order. Compared against `preferredVoice`. -/
def preferredVoiceSpec (voices : List Voice) : Option Voice :=
  ((voices.filter googleEnVoice).head?).orElse (fun _ =>
    (((voices.filter enUSVoice).head?)).orElse (fun _ =>
      (voices.filter enVoice).head?))

/-- A `SpeechSynthesisUtterance` as configured by `speak`: text, the
assigned voice (`none` means no assignment, i.e. the platform default), and
the three numeric settings, all set to 1. -/
structure Utterance where
  text : String
  voice : Option Voice
  pitch : Nat
  rate : Nat
  volume : Nat
deriving DecidableEq

/-- An observable effect of one synchronous `speak` call:
`window.speechSynthesis.cancel()` or `window.speechSynthesis.speak(u)`. -/
inductive SpeechEvent where
  | cancel
  | speakUtterance (u : Utterance)
deriving DecidableEq

/-- The state read by `speak`: the `voices` and `speaking` React states of
the hook, plus whether `window.speechSynthesis` is defined at all. -/
structure SpeechState where
  voices : List Voice
  speaking : Bool
  synthAvailable : Bool
deriving DecidableEq

/-- `speak` of `src/hooks/useSpeechSynthesis.ts` (lines 25-55). The argument
is `Option String` because callers can pass `undefined` (`none`). Falsy text
(`undefined` or `""`) or an undefined `window.speechSynthesis` returns
immediately. Otherwise ongoing speech is cancelled when `speaking` is set,
and one utterance with the preferred voice is queued. The synchronous call
never changes the hook state: `speaking` is only flipped later by the
utterance's `onstart`/`onend`/`onerror` callbacks. -/
def speak (st : SpeechState) (text : Option String) : SpeechState × List SpeechEvent :=
  match text with
  | none => (st, [])
  | some t =>
      if (t == "") || !st.synthAvailable then (st, [])
      else
        let cancelEvents := if st.speaking then [SpeechEvent.cancel] else []
        let u : Utterance :=
          { text := t, voice := preferredVoice st.voices, pitch := 1, rate := 1, volume := 1 }
        (st, cancelEvents ++ [SpeechEvent.speakUtterance u])

/-! ## App component (`src/App.tsx`) -/

/-- One entry of the `emotionConfig` table (lines 7-48 of `src/App.tsx`).
The icon strings reproduce the exact characters committed in the source
file. -/
structure EmotionTheme where
  gradient : String
  icon : String
  title : String
deriving DecidableEq

/-- The `emotionConfig` object literal of `src/App.tsx`, keyed by the enum
string values. -/
def emotionConfig : List (String × EmotionTheme) :=
  [("HAPPY", { gradient := "from-yellow-400 via-orange-500 to-red-500",
               icon := "\uF8FF\u00FC\u00F2\u00E4", title := "Radiating Joy!" }),
   ("SAD", { gradient := "from-blue-400 via-indigo-500 to-purple-600",
             icon := "\uF8FF\u00FC\u00F2\u00A2", title := "Feeling Blue" }),
   ("STRESSED", { gradient := "from-red-500 via-pink-600 to-purple-700",
                  icon := "\uF8FF\u00FC\u00F2\u00B4", title := "Feeling Stressed" }),
   ("FOCUSED", { gradient := "from-green-400 via-teal-500 to-cyan-600",
                 icon := "\uF8FF\u00FC\u00A7\u00EE", title := "In The Zone" }),
   ("TIRED", { gradient := "from-gray-600 via-slate-700 to-zinc-800",
               icon := "\uF8FF\u00FC\u00F2\u00A5", title := "Feeling Tired" }),
   ("NEUTRAL", { gradient := "from-slate-500 via-gray-600 to-slate-700",
                 icon := "\uF8FF\u00FC\u00F2\u00EA", title := "Calm & Collected" }),
   ("SURPRISED", { gradient := "from-pink-400 via-purple-500 to-indigo-500",
                   icon := "\uF8FF\u00FC\u00F2\u2264", title := "Surprised!" }),
   ("ANGRY", { gradient := "from-red-600 via-rose-700 to-red-800",
               icon := "\uF8FF\u00FC\u00F2\u2020", title := "Feeling Angry" })]

/-- The `emotionVisualEffects` record of `src/App.tsx` (lines 50-59): border
effect classes, one entry per emotion. -/
def emotionVisualEffects : List (String × String) :=
  [("HAPPY", "border-yellow-300/50 animate-pulse-slow"),
   ("FOCUSED", "border-cyan-400/70 shadow-lg shadow-cyan-400/50"),
   ("SAD", "border-blue-400/30"),
   ("STRESSED", "border-red-500/60 animate-shake-fast"),
   ("ANGRY", "border-red-600/80 animate-shake-fast"),
   ("TIRED", "border-transparent vignette"),
   ("SURPRISED", "border-indigo-400/80 animate-ping-once"),
   ("NEUTRAL", "border-transparent")]

/-- The `emotionFilterEffects` record of `src/App.tsx` (lines 61-64): a
`Partial` record with entries for SAD and TIRED only. -/
def emotionFilterEffects : List (String × String) :=
  [("SAD", "saturate-[.75] brightness-90"),
   ("TIRED", "brightness-90")]

/-- The React state of the `App` component that the capture loop reads and
writes: `isAnalyzing`, `isLoading`, `error`, `analysisResult`,
`lastSpokenMessage` (an `Option` because JS can store `undefined` in it;
its initial value is `some ""`), and `surpriseKey`. -/
structure AppState where
  isAnalyzing : Bool
  isLoading : Bool
  error : Option String
  analysisResult : Option AnalysisResult
  lastSpokenMessage : Option String
  surpriseKey : Nat
deriving DecidableEq

/-- Line 93 of `src/App.tsx`: `analysisResult?.emotion || Emotion.NEUTRAL`.
Optional chaining yields `undefined` without a result, and `||` replaces any
falsy value (`undefined` or the empty string) by `"NEUTRAL"`. -/
def currentEmotion (st : AppState) : String :=
  match st.analysisResult with
  | some r => if r.emotion = "" then "NEUTRAL" else r.emotion
  | none => "NEUTRAL"

/-- Line 95 of `src/App.tsx`: the border-effect class is looked up at the
current emotion only when `isAnalyzing && analysisResult`, and at NEUTRAL
otherwise (`Option` because a JS record lookup at an unknown key is
`undefined`). -/
def visualEffectClassOf (st : AppState) : Option String :=
  if st.isAnalyzing && st.analysisResult.isSome then
    emotionVisualEffects.lookup (currentEmotion st)
  else
    emotionVisualEffects.lookup "NEUTRAL"

/-- Line 96 of `src/App.tsx`: the filter class is
`emotionFilterEffects[currentEmotion] ?? ''` when
`isAnalyzing && analysisResult`, and `''` otherwise. -/
def filterEffectClassOf (st : AppState) : String :=
  if st.isAnalyzing && st.analysisResult.isSome then
    (emotionFilterEffects.lookup (currentEmotion st)).getD ""
  else
    ""

/-- The interval delay passed to `window.setInterval` on line 165 of
`src/App.tsx`, in milliseconds. -/
def captureIntervalMs : Nat := 5000

/-- The MIME type passed to `canvas.toDataURL` on line 139 of `src/App.tsx`. -/
def snapshotMimeType : String := "image/jpeg"

/-- The environment of one tick of the capture timer: whether
`videoRef.current` and `canvasRef.current` are non-null, whether
`canvas.getContext('2d')` returns a context, the outcome of the remote call
for this frame, and `Date.now()` (used as `surpriseKey`). -/
structure TickInput where
  videoPresent : Bool
  canvasPresent : Bool
  contextAvailable : Bool
  modelOutcome : ModelOutcome
  now : Nat
deriving DecidableEq

/-- The observable outcome of one `captureAndAnalyze` call: the state after
the call, whether a frame was snapshotted to an encoded image
(`drawImage` + `toDataURL` ran), and the arguments of the `speak` calls
made, in order. -/
structure TickResult where
  state : AppState
  snapshotTaken : Bool
  speakCalls : List (Option String)
deriving DecidableEq

/-- `captureAndAnalyze` of `src/App.tsx` (lines 125-158). Returns early
without any effect when a capture is already loading or a ref is null.
Otherwise sets `isLoading`, clears `error`, and — when the 2d context is
available — snapshots the frame, calls `analyzeImage`, and either stores the
result (updating `surpriseKey` on SURPRISED and speaking the encouraging
message when it differs from the last spoken one) or, on a throw, stores the
error message and sets `isAnalyzing := false`. `isLoading` is reset at the
end. -/
def captureAndAnalyze (st : AppState) (inp : TickInput) : TickResult :=
  if st.isLoading || !inp.videoPresent || !inp.canvasPresent then
    { state := st, snapshotTaken := false, speakCalls := [] }
  else
    let st1 : AppState := { st with isLoading := true, error := none }
    let body : TickResult :=
      if inp.contextAvailable then
        match analyzeImage inp.modelOutcome with
        | .ok result =>
            let st2 : AppState := { st1 with analysisResult := some result }
            let st3 : AppState :=
              if result.emotion = "SURPRISED" then { st2 with surpriseKey := inp.now } else st2
            if result.encouragingMessage ≠ st3.lastSpokenMessage then
              { state := { st3 with lastSpokenMessage := result.encouragingMessage },
                snapshotTaken := true, speakCalls := [result.encouragingMessage] }
            else
              { state := st3, snapshotTaken := true, speakCalls := [] }
        | .error msg =>
            { state := { st1 with error := some msg, isAnalyzing := false },
              snapshotTaken := true, speakCalls := [] }
      else
        { state := st1, snapshotTaken := false, speakCalls := [] }
    { body with state := { body.state with isLoading := false } }

/-- One firing of the interval timer. The `useEffect` of lines 160-181
installs the interval only while `isAnalyzing` and clears it as soon as
`isAnalyzing` becomes false, so a tick runs `captureAndAnalyze` exactly when
`isAnalyzing` holds and otherwise nothing happens. -/
def intervalStep (st : AppState) (inp : TickInput) : TickResult :=
  if st.isAnalyzing then captureAndAnalyze st inp
  else { state := st, snapshotTaken := false, speakCalls := [] }

/-- A run of successive timer ticks: the final state, the number of frames
snapshotted, and all `speak` call arguments in order. -/
def runTicks : AppState → List TickInput → AppState × Nat × List (Option String)
  | st, [] => (st, 0, [])
  | st, inp :: rest =>
      let r := intervalStep st inp
      let rec_ := runTicks r.state rest
      (rec_.1, (if r.snapshotTaken then 1 else 0) + rec_.2.1, r.speakCalls ++ rec_.2.2)

/-! ## Helper lemmas -/

/-- Whatever `validateEmotion` returns is one of the eight enum values. -/
theorem validateEmotion_mem (o : Option String) : validateEmotion o ∈ emotionValues := by
  cases o with
  | none => simp [validateEmotion, emotionValues]
  | some s =>
      show (if emotionValues.contains s then s else "NEUTRAL") ∈ emotionValues
      by_cases h : emotionValues.contains s = true
      · rw [if_pos h]
        exact List.mem_of_elem_eq_true h
      · rw [if_neg h]
        simp [emotionValues]

/-- `analyzeImage` fails only with the fixed catch-block message. -/
theorem analyzeImage_error_msg (m : ModelOutcome) (msg : String)
    (h : analyzeImage m = .error msg) : msg = failedAnalysisMessage := by
  cases m with
  | networkError s => simpa [analyzeImage] using h.symm
  | malformedJson s => simpa [analyzeImage] using h.symm
  | parsed raw => simp [analyzeImage] at h

/-- `List.find?` returns the head of the filtered list. -/
theorem find?_eq_filterHead {α : Type} (p : α → Bool) :
    ∀ l : List α, l.find? p = (l.filter p).head?
  | [] => rfl
  | a :: l => by
      by_cases h : p a
      · rw [List.find?_cons_of_pos _ h, List.filter_cons_of_pos h]
        rfl
      · rw [List.find?_cons_of_neg _ h, List.filter_cons_of_neg h, find?_eq_filterHead p l]

/-- The `find`/`||` chain of the hook equals the spec-side "first voice
whose ..." preference order. -/
theorem preferredVoice_eq_spec (voices : List Voice) :
    preferredVoice voices = preferredVoiceSpec voices := by
  unfold preferredVoice preferredVoiceSpec
  rw [find?_eq_filterHead, find?_eq_filterHead, find?_eq_filterHead]

/-- While `isAnalyzing` is false the interval is cleared: a tick does
nothing. -/
theorem intervalStep_not_analyzing (st : AppState) (inp : TickInput)
    (h : st.isAnalyzing = false) :
    intervalStep st inp = { state := st, snapshotTaken := false, speakCalls := [] } := by
  simp [intervalStep, h]

/-- While `isAnalyzing` is false, any run of ticks leaves the state
untouched, snapshots nothing and speaks nothing. -/
theorem runTicks_not_analyzing (st : AppState) (h : st.isAnalyzing = false) :
    ∀ inps : List TickInput, runTicks st inps = (st, 0, []) := by
  intro inps
  induction inps with
  | nil => rfl
  | cons i rest ih => simp [runTicks, intervalStep_not_analyzing st i h, ih]

/-- Field-level description of an erroring capture tick: the error message
and `isAnalyzing` are updated, the frame was snapshotted, nothing is spoken,
and every other state field keeps its value. -/
theorem captureAndAnalyze_error_fields (st : AppState) (inp : TickInput) (msg : String)
    (hl : st.isLoading = false) (hv : inp.videoPresent = true)
    (hc : inp.canvasPresent = true) (hctx : inp.contextAvailable = true)
    (herr : analyzeImage inp.modelOutcome = .error msg) :
    captureAndAnalyze st inp =
      { state := { st with error := some msg, isAnalyzing := false },
        snapshotTaken := true, speakCalls := [] } := by
  obtain ⟨sa, sl, se, sres, slm, ssk⟩ := st
  simp only at hl
  subst hl
  simp [captureAndAnalyze, hv, hc, hctx, herr]

/-- Field-level description of a successful capture tick: the result is
stored, `surpriseKey` is refreshed exactly on SURPRISED, and the message is
spoken and recorded exactly when it differs from the last spoken one. -/
theorem captureAndAnalyze_ok_fields (st : AppState) (inp : TickInput) (r : AnalysisResult)
    (hl : st.isLoading = false) (hv : inp.videoPresent = true)
    (hc : inp.canvasPresent = true) (hctx : inp.contextAvailable = true)
    (hok : analyzeImage inp.modelOutcome = .ok r) :
    captureAndAnalyze st inp =
      { state :=
          { st with
            error := none,
            analysisResult := some r,
            surpriseKey := if r.emotion = "SURPRISED" then inp.now else st.surpriseKey,
            lastSpokenMessage := if r.encouragingMessage = st.lastSpokenMessage then
              st.lastSpokenMessage else r.encouragingMessage },
        snapshotTaken := true,
        speakCalls := if r.encouragingMessage = st.lastSpokenMessage then []
          else [r.encouragingMessage] } := by
  obtain ⟨sa, sl, se, sres, slm, ssk⟩ := st
  simp only at hl
  subst hl
  by_cases hS : r.emotion = "SURPRISED" <;> by_cases hM : r.encouragingMessage = slm <;>
    simp [captureAndAnalyze, hv, hc, hctx, hok, hS, hM]

/-- While `isAnalyzing` holds, a timer tick runs `captureAndAnalyze`. -/
theorem intervalStep_analyzing (st : AppState) (inp : TickInput)
    (h : st.isAnalyzing = true) : intervalStep st inp = captureAndAnalyze st inp := by
  unfold intervalStep
  rw [if_pos h]

/-! ## Claim theorems -/

/-- C1: for every outcome of the remote call, `analyzeImage` either returns
a typed result whose `emotion` field is one of the enum values, or fails
with the single fixed classified message — every failure (network error,
malformed JSON) is rethrown as that fixed message and no raw underlying
error escapes. -/
theorem analyzeImage_error_classified_C1 (resp : ModelOutcome) :
    analyzeImage resp = Except.error failedAnalysisMessage ∨
    ∃ r : AnalysisResult, analyzeImage resp = Except.ok r ∧ r.emotion ∈ emotionValues := by
  cases resp with
  | networkError m => exact Or.inl rfl
  | malformedJson m => exact Or.inl rfl
  | parsed raw => exact Or.inr ⟨_, rfl, validateEmotion_mem raw.emotion⟩

/-- C2: every successful `analyzeImage` call returns an `emotion` among the
eight labels HAPPY, SAD, STRESSED, FOCUSED, TIRED, NEUTRAL, SURPRISED,
ANGRY; in particular a model emotion outside this set is replaced by
NEUTRAL. -/
theorem analyzeImage_emotion_valid_C2 (raw : RawResult) (r : AnalysisResult) (s : String)
    (h : analyzeImage (ModelOutcome.parsed raw) = Except.ok r) :
    r.emotion ∈ ["HAPPY", "SAD", "STRESSED", "FOCUSED", "TIRED", "NEUTRAL",
      "SURPRISED", "ANGRY"] ∧
    (raw.emotion = some s → emotionValues.contains s = false → r.emotion = "NEUTRAL") := by
  have hr : r = { emotion := validateEmotion raw.emotion,
                  environmentAnalysis := raw.environmentAnalysis,
                  encouragingMessage := raw.encouragingMessage,
                  productivityTip := raw.productivityTip } := by
    simpa [analyzeImage] using h.symm
  subst hr
  refine ⟨validateEmotion_mem raw.emotion, ?_⟩
  intro he hc
  show validateEmotion raw.emotion = "NEUTRAL"
  rw [he]
  show (if emotionValues.contains s then s else "NEUTRAL") = "NEUTRAL"
  have hne : ¬ (emotionValues.contains s = true) := by
    rw [hc]
    simp
  rw [if_neg hne]

/-- C2 witness: a parsed response carrying the unknown emotion "BORED" is
returned with emotion NEUTRAL, which is among the eight labels. -/
theorem analyzeImage_emotion_valid_C2_witness :
    (AnalysisResult.mk "NEUTRAL" (some "dim light") (some "Keep going!")
        (some "Stretch")).emotion ∈ ["HAPPY", "SAD", "STRESSED", "FOCUSED", "TIRED",
      "NEUTRAL", "SURPRISED", "ANGRY"] ∧
    (AnalysisResult.mk "NEUTRAL" (some "dim light") (some "Keep going!")
        (some "Stretch")).emotion = "NEUTRAL" := by
  have h := analyzeImage_emotion_valid_C2
    (RawResult.mk (some "BORED") (some "dim light") (some "Keep going!") (some "Stretch"))
    (AnalysisResult.mk "NEUTRAL" (some "dim light") (some "Keep going!") (some "Stretch"))
    "BORED" rfl
  exact ⟨h.1, h.2 rfl (by decide)⟩

/-- C6 counterexample: the claim says `analyzeImage` never returns a result
missing one of the four fields, but a parsed model response carrying only an
`emotion` field is returned as a success whose other three fields are
absent — the cast `result as AnalysisResult` checks nothing. -/
theorem analyzeImage_missing_fields_C6_cex :
    analyzeImage (ModelOutcome.parsed
      (RawResult.mk (some "HAPPY") none none none)) =
    Except.ok (AnalysisResult.mk "HAPPY" none none none) := rfl

/-- C6 (amended): every successful `analyzeImage` result contains a valid
`emotion` field, and contains each of `environmentAnalysis`,
`encouragingMessage`, `productivityTip` exactly as the parsed model response
does — present iff the response carried it; when the response conforms to
the declared schema (all four fields present, as `analysisSchema` requires),
the result contains all four fields. -/
theorem analyzeImage_fields_C6 (raw : RawResult) (r : AnalysisResult)
    (h : analyzeImage (ModelOutcome.parsed raw) = Except.ok r) :
    r.emotion ∈ emotionValues ∧
    r.environmentAnalysis = raw.environmentAnalysis ∧
    r.encouragingMessage = raw.encouragingMessage ∧
    r.productivityTip = raw.productivityTip := by
  have hr : r = { emotion := validateEmotion raw.emotion,
                  environmentAnalysis := raw.environmentAnalysis,
                  encouragingMessage := raw.encouragingMessage,
                  productivityTip := raw.productivityTip } := by
    simpa [analyzeImage] using h.symm
  subst hr
  exact ⟨validateEmotion_mem raw.emotion, rfl, rfl, rfl⟩

/-- C6 witness: a schema-conforming response (all four fields present) is
returned with all four fields present and a valid emotion. -/
theorem analyzeImage_fields_C6_witness :
    (AnalysisResult.mk "HAPPY" (some "tidy desk") (some "Great focus!")
        (some "Take a break")).emotion ∈ emotionValues ∧
    (AnalysisResult.mk "HAPPY" (some "tidy desk") (some "Great focus!")
        (some "Take a break")).environmentAnalysis = some "tidy desk" ∧
    (AnalysisResult.mk "HAPPY" (some "tidy desk") (some "Great focus!")
        (some "Take a break")).encouragingMessage = some "Great focus!" ∧
    (AnalysisResult.mk "HAPPY" (some "tidy desk") (some "Great focus!")
        (some "Take a break")).productivityTip = some "Take a break" := by
  exact analyzeImage_fields_C6
    (RawResult.mk (some "HAPPY") (some "tidy desk") (some "Great focus!") (some "Take a break"))
    (AnalysisResult.mk "HAPPY" (some "tidy desk") (some "Great focus!") (some "Take a break"))
    rfl

/-- C7: the hook's voice selection follows the fixed preference order: the
first available voice whose name contains "Google" and whose language starts
with "en"; otherwise the first whose language starts with "en-US"; otherwise
the first whose language starts with "en"; otherwise none is assigned (the
utterance keeps the platform default), and the utterance queued by `speak`
carries exactly that voice. -/
theorem speak_voice_preference_C7 (st : SpeechState) (t : String)
    (hs : st.synthAvailable = true) (ht : ¬ t = "") :
    preferredVoice st.voices = preferredVoiceSpec st.voices ∧
    (speak st (some t)).2.getLast? = some (SpeechEvent.speakUtterance
      (Utterance.mk t (preferredVoiceSpec st.voices) 1 1 1)) := by
  refine ⟨preferredVoice_eq_spec st.voices, ?_⟩
  have hbeq : (t == "") = false := by
    simpa using ht
  simp [speak, hbeq, hs, preferredVoice_eq_spec]

/-- C7 witness: with a French voice, a Google English voice and a plain
en-US voice available, `speak` queues an utterance carrying the Google
English voice. -/
theorem speak_voice_preference_C7_witness :
    preferredVoice [Voice.mk "Hortense" "fr-FR", Voice.mk "Samantha" "en-US",
        Voice.mk "Google US English" "en-US"] =
      preferredVoiceSpec [Voice.mk "Hortense" "fr-FR", Voice.mk "Samantha" "en-US",
        Voice.mk "Google US English" "en-US"] ∧
    (speak (SpeechState.mk [Voice.mk "Hortense" "fr-FR", Voice.mk "Samantha" "en-US",
        Voice.mk "Google US English" "en-US"] false true) (some "Nice job!")).2.getLast? =
      some (SpeechEvent.speakUtterance (Utterance.mk "Nice job!"
        (preferredVoiceSpec [Voice.mk "Hortense" "fr-FR", Voice.mk "Samantha" "en-US",
          Voice.mk "Google US English" "en-US"]) 1 1 1)) := by
  exact speak_voice_preference_C7
    (SpeechState.mk [Voice.mk "Hortense" "fr-FR", Voice.mk "Samantha" "en-US",
      Voice.mk "Google US English" "en-US"] false true)
    "Nice job!" rfl (by decide)

/-- C10: calling `speak` with the empty string is a no-op: the text is falsy,
so the function returns before cancelling ongoing speech or creating an
utterance, and the hook state (including the `speaking` flag) is unchanged. -/
theorem speak_empty_noop_C10 (st : SpeechState) :
    speak st (some "") = (st, []) := by
  simp [speak]

/-- C3: the speak announcement is deduplicated at the App level: a
successful tick calls `speak` with the result's `encouragingMessage` exactly
when it differs from `lastSpokenMessage` (and then records it as last
spoken), so two consecutive successful results with equal
`encouragingMessage` cause exactly one `speak` call. -/
theorem speak_dedup_C3 (st : AppState) (inp1 inp2 : TickInput) (r1 r2 : AnalysisResult)
    (ha : st.isAnalyzing = true) (hl : st.isLoading = false)
    (hv1 : inp1.videoPresent = true) (hc1 : inp1.canvasPresent = true)
    (hctx1 : inp1.contextAvailable = true)
    (hv2 : inp2.videoPresent = true) (hc2 : inp2.canvasPresent = true)
    (hctx2 : inp2.contextAvailable = true)
    (hok1 : analyzeImage inp1.modelOutcome = Except.ok r1)
    (hok2 : analyzeImage inp2.modelOutcome = Except.ok r2)
    (heq : r2.encouragingMessage = r1.encouragingMessage)
    (hnew : r1.encouragingMessage ≠ st.lastSpokenMessage) :
    (intervalStep st inp1).speakCalls = [r1.encouragingMessage] ∧
    (intervalStep st inp1).state.lastSpokenMessage = r1.encouragingMessage ∧
    (intervalStep (intervalStep st inp1).state inp2).speakCalls = [] ∧
    (intervalStep st inp1).speakCalls ++
      (intervalStep (intervalStep st inp1).state inp2).speakCalls = [r1.encouragingMessage] := by
  obtain ⟨sa, sl, se, sres, slm, ssk⟩ := st
  simp only at ha hl hnew
  subst ha
  subst hl
  by_cases hS1 : r1.emotion = "SURPRISED" <;> by_cases hS2 : r2.emotion = "SURPRISED" <;>
    simp [intervalStep, captureAndAnalyze, hv1, hc1, hctx1, hv2, hc2, hctx2, hok1, hok2,
      heq, hnew, hS1, hS2]

/-- C3 witness: from a fresh state, two successful ticks with the same
encouraging message speak it once on the first tick and not on the second. -/
theorem speak_dedup_C3_witness :
    (intervalStep (AppState.mk true false none none (some "") 0)
        (TickInput.mk true true true (ModelOutcome.parsed
          (RawResult.mk (some "HAPPY") (some "bright room") (some "You rock") (some "Hydrate"))) 3)).speakCalls
      = [some "You rock"] ∧
    (intervalStep (AppState.mk true false none none (some "") 0)
        (TickInput.mk true true true (ModelOutcome.parsed
          (RawResult.mk (some "HAPPY") (some "bright room") (some "You rock") (some "Hydrate"))) 3)).state.lastSpokenMessage
      = some "You rock" ∧
    (intervalStep (intervalStep (AppState.mk true false none none (some "") 0)
        (TickInput.mk true true true (ModelOutcome.parsed
          (RawResult.mk (some "HAPPY") (some "bright room") (some "You rock") (some "Hydrate"))) 3)).state
        (TickInput.mk true true true (ModelOutcome.parsed
          (RawResult.mk (some "HAPPY") (some "bright room") (some "You rock") (some "Hydrate"))) 9)).speakCalls
      = [] ∧
    (intervalStep (AppState.mk true false none none (some "") 0)
        (TickInput.mk true true true (ModelOutcome.parsed
          (RawResult.mk (some "HAPPY") (some "bright room") (some "You rock") (some "Hydrate"))) 3)).speakCalls ++
      (intervalStep (intervalStep (AppState.mk true false none none (some "") 0)
        (TickInput.mk true true true (ModelOutcome.parsed
          (RawResult.mk (some "HAPPY") (some "bright room") (some "You rock") (some "Hydrate"))) 3)).state
        (TickInput.mk true true true (ModelOutcome.parsed
          (RawResult.mk (some "HAPPY") (some "bright room") (some "You rock") (some "Hydrate"))) 9)).speakCalls
      = [some "You rock"] :=
  speak_dedup_C3 (AppState.mk true false none none (some "") 0)
    (TickInput.mk true true true (ModelOutcome.parsed
      (RawResult.mk (some "HAPPY") (some "bright room") (some "You rock") (some "Hydrate"))) 3)
    (TickInput.mk true true true (ModelOutcome.parsed
      (RawResult.mk (some "HAPPY") (some "bright room") (some "You rock") (some "Hydrate"))) 9)
    (AnalysisResult.mk "HAPPY" (some "bright room") (some "You rock") (some "Hydrate"))
    (AnalysisResult.mk "HAPPY" (some "bright room") (some "You rock") (some "Hydrate"))
    rfl rfl rfl rfl rfl rfl rfl rfl rfl rfl rfl (by decide)

/-- C4: when `analyzeImage` throws during a live capture tick, the error
message (always the fixed classified message) is stored for display and
`isAnalyzing` is set to false, after which the interval is cleared and any
further ticks change nothing, snapshot nothing and speak nothing — no
retry — until the user starts analysis again. -/
theorem error_stops_loop_C4 (st : AppState) (inp : TickInput) (inps : List TickInput)
    (msg : String)
    (ha : st.isAnalyzing = true) (hl : st.isLoading = false)
    (hv : inp.videoPresent = true) (hc : inp.canvasPresent = true)
    (hctx : inp.contextAvailable = true)
    (herr : analyzeImage inp.modelOutcome = Except.error msg) :
    (intervalStep st inp).state.error = some msg ∧
    msg = failedAnalysisMessage ∧
    (intervalStep st inp).state.isAnalyzing = false ∧
    runTicks (intervalStep st inp).state inps = ((intervalStep st inp).state, 0, []) := by
  rw [intervalStep_analyzing st inp ha, captureAndAnalyze_error_fields st inp msg hl hv hc hctx herr]
  exact ⟨rfl, analyzeImage_error_msg inp.modelOutcome msg herr, rfl,
    runTicks_not_analyzing _ rfl inps⟩

/-- C4 witness: a network failure on a live tick stores the fixed error,
stops analysis, and two subsequent ticks are no-ops. -/
theorem error_stops_loop_C4_witness :
    (intervalStep (AppState.mk true false none none (some "") 0)
        (TickInput.mk true true true (ModelOutcome.networkError "ECONNRESET") 7)).state.error
      = some failedAnalysisMessage ∧
    failedAnalysisMessage = failedAnalysisMessage ∧
    (intervalStep (AppState.mk true false none none (some "") 0)
        (TickInput.mk true true true (ModelOutcome.networkError "ECONNRESET") 7)).state.isAnalyzing
      = false ∧
    runTicks (intervalStep (AppState.mk true false none none (some "") 0)
        (TickInput.mk true true true (ModelOutcome.networkError "ECONNRESET") 7)).state
      [TickInput.mk true true true (ModelOutcome.networkError "again") 8,
       TickInput.mk true true true (ModelOutcome.parsed
         (RawResult.mk (some "HAPPY") (some "a") (some "b") (some "c"))) 9]
      = ((intervalStep (AppState.mk true false none none (some "") 0)
          (TickInput.mk true true true (ModelOutcome.networkError "ECONNRESET") 7)).state, 0, []) :=
  error_stops_loop_C4 (AppState.mk true false none none (some "") 0)
    (TickInput.mk true true true (ModelOutcome.networkError "ECONNRESET") 7)
    [TickInput.mk true true true (ModelOutcome.networkError "again") 8,
     TickInput.mk true true true (ModelOutcome.parsed
       (RawResult.mk (some "HAPPY") (some "a") (some "b") (some "c"))) 9]
    failedAnalysisMessage rfl rfl rfl rfl rfl rfl

/-- C5 counterexample: the claim says a frame is snapshotted on every tick
of the timer without exception, but a tick that fires while the previous
capture is still loading returns early before `drawImage`/`toDataURL`:
here `isAnalyzing` is true (the loop is live) yet no snapshot is taken. -/
theorem snapshot_every_tick_C5_cex :
    (AppState.mk true true none none (some "") 0).isAnalyzing = true ∧
    (intervalStep (AppState.mk true true none none (some "") 0)
      (TickInput.mk true true true (ModelOutcome.parsed
        (RawResult.mk (some "HAPPY") (some "a") (some "b") (some "c"))) 0)).snapshotTaken
      = false :=
  ⟨rfl, rfl⟩

/-- C5 (amended): on every tick of the fixed-interval (5000 ms) timer on
which no previous capture is still loading, the video and canvas refs are
present and the 2d context is available, the loop snapshots the video frame
to an encoded JPEG image — whether the subsequent analysis succeeds or
fails. -/
theorem snapshot_on_ready_tick_C5 (st : AppState) (inp : TickInput)
    (ha : st.isAnalyzing = true) (hl : st.isLoading = false)
    (hv : inp.videoPresent = true) (hc : inp.canvasPresent = true)
    (hctx : inp.contextAvailable = true) :
    (intervalStep st inp).snapshotTaken = true ∧
    captureIntervalMs = 5000 ∧ snapshotMimeType = "image/jpeg" := by
  refine ⟨?_, rfl, rfl⟩
  rw [intervalStep_analyzing st inp ha]
  cases hA : analyzeImage inp.modelOutcome with
  | ok r => rw [captureAndAnalyze_ok_fields st inp r hl hv hc hctx hA]
  | error m => rw [captureAndAnalyze_error_fields st inp m hl hv hc hctx hA]

/-- C5 witness: a ready tick whose analysis fails still snapshots a frame. -/
theorem snapshot_on_ready_tick_C5_witness :
    (intervalStep (AppState.mk true false none none (some "") 0)
        (TickInput.mk true true true (ModelOutcome.networkError "boom") 7)).snapshotTaken = true ∧
    captureIntervalMs = 5000 ∧ snapshotMimeType = "image/jpeg" :=
  snapshot_on_ready_tick_C5 (AppState.mk true false none none (some "") 0)
    (TickInput.mk true true true (ModelOutcome.networkError "boom") 7)
    rfl rfl rfl rfl rfl

/-- C8: the visual theme is a pure total function of the state: every
`Emotion` enum value has a gradient/icon/title entry and a border-effect
entry; without an analysis result the current emotion is NEUTRAL; the
border and filter effects are looked up at the current emotion only when
analysis is running and a result exists, and otherwise the NEUTRAL border
and the empty filter are used. -/
theorem theme_total_C8 (st : AppState) (r : AnalysisResult) :
    (∀ e : Emotion, (emotionConfig.lookup (Emotion.toKey e)).isSome = true ∧
      (emotionVisualEffects.lookup (Emotion.toKey e)).isSome = true) ∧
    currentEmotion { st with analysisResult := none } = "NEUTRAL" ∧
    visualEffectClassOf { st with isAnalyzing := false } =
      emotionVisualEffects.lookup "NEUTRAL" ∧
    filterEffectClassOf { st with isAnalyzing := false } = "" ∧
    visualEffectClassOf { st with analysisResult := none } =
      emotionVisualEffects.lookup "NEUTRAL" ∧
    filterEffectClassOf { st with analysisResult := none } = "" ∧
    visualEffectClassOf { st with isAnalyzing := true, analysisResult := some r } =
      emotionVisualEffects.lookup (currentEmotion { st with analysisResult := some r }) ∧
    filterEffectClassOf { st with isAnalyzing := true, analysisResult := some r } =
      (emotionFilterEffects.lookup (currentEmotion { st with analysisResult := some r })).getD "" := by
  refine ⟨fun e => ⟨?_, ?_⟩, rfl, ?_, ?_, ?_, ?_, ?_, ?_⟩
  · cases e <;> rfl
  · cases e <;> rfl
  · simp [visualEffectClassOf]
  · simp [filterEffectClassOf]
  · simp [visualEffectClassOf]
  · simp [filterEffectClassOf]
  · simp [visualEffectClassOf, currentEmotion]
  · simp [filterEffectClassOf, currentEmotion]

/-- C9: when a capture tick's `analyzeImage` call throws, the stored
`analysisResult` and the last spoken message are preserved, nothing is
spoken, and only `error` and `isAnalyzing` change — `isLoading` ends at its
starting value and `surpriseKey` is untouched. -/
theorem error_tick_preserves_C9 (st : AppState) (inp : TickInput) (msg : String)
    (ha : st.isAnalyzing = true) (hl : st.isLoading = false)
    (hv : inp.videoPresent = true) (hc : inp.canvasPresent = true)
    (hctx : inp.contextAvailable = true)
    (herr : analyzeImage inp.modelOutcome = Except.error msg) :
    (intervalStep st inp).state.analysisResult = st.analysisResult ∧
    (intervalStep st inp).state.lastSpokenMessage = st.lastSpokenMessage ∧
    (intervalStep st inp).speakCalls = [] ∧
    (intervalStep st inp).state.error = some msg ∧
    (intervalStep st inp).state.isAnalyzing = false ∧
    (intervalStep st inp).state.isLoading = st.isLoading ∧
    (intervalStep st inp).state.surpriseKey = st.surpriseKey := by
  rw [intervalStep_analyzing st inp ha, captureAndAnalyze_error_fields st inp msg hl hv hc hctx herr]
  exact ⟨rfl, rfl, rfl, rfl, rfl, rfl, rfl⟩

/-- C9 witness: a failing tick from a state holding a previous result keeps
that result and the last spoken message, and changes only error and
isAnalyzing. -/
theorem error_tick_preserves_C9_witness :
    (intervalStep (AppState.mk true false none
        (some (AnalysisResult.mk "SAD" (some "dark") (some "Chin up") (some "Nap")))
        (some "Chin up") 5)
        (TickInput.mk true true true (ModelOutcome.malformedJson "Unexpected token") 7)).state.analysisResult
      = some (AnalysisResult.mk "SAD" (some "dark") (some "Chin up") (some "Nap")) ∧
    (intervalStep (AppState.mk true false none
        (some (AnalysisResult.mk "SAD" (some "dark") (some "Chin up") (some "Nap")))
        (some "Chin up") 5)
        (TickInput.mk true true true (ModelOutcome.malformedJson "Unexpected token") 7)).state.lastSpokenMessage
      = some "Chin up" ∧
    (intervalStep (AppState.mk true false none
        (some (AnalysisResult.mk "SAD" (some "dark") (some "Chin up") (some "Nap")))
        (some "Chin up") 5)
        (TickInput.mk true true true (ModelOutcome.malformedJson "Unexpected token") 7)).speakCalls
      = [] ∧
    (intervalStep (AppState.mk true false none
        (some (AnalysisResult.mk "SAD" (some "dark") (some "Chin up") (some "Nap")))
        (some "Chin up") 5)
        (TickInput.mk true true true (ModelOutcome.malformedJson "Unexpected token") 7)).state.error
      = some failedAnalysisMessage ∧
    (intervalStep (AppState.mk true false none
        (some (AnalysisResult.mk "SAD" (some "dark") (some "Chin up") (some "Nap")))
        (some "Chin up") 5)
        (TickInput.mk true true true (ModelOutcome.malformedJson "Unexpected token") 7)).state.isAnalyzing
      = false ∧
    (intervalStep (AppState.mk true false none
        (some (AnalysisResult.mk "SAD" (some "dark") (some "Chin up") (some "Nap")))
        (some "Chin up") 5)
        (TickInput.mk true true true (ModelOutcome.malformedJson "Unexpected token") 7)).state.isLoading
      = false ∧
    (intervalStep (AppState.mk true false none
        (some (AnalysisResult.mk "SAD" (some "dark") (some "Chin up") (some "Nap")))
        (some "Chin up") 5)
        (TickInput.mk true true true (ModelOutcome.malformedJson "Unexpected token") 7)).state.surpriseKey
      = 5 :=
  error_tick_preserves_C9 (AppState.mk true false none
      (some (AnalysisResult.mk "SAD" (some "dark") (some "Chin up") (some "Nap")))
      (some "Chin up") 5)
    (TickInput.mk true true true (ModelOutcome.malformedJson "Unexpected token") 7)
    failedAnalysisMessage rfl rfl rfl rfl rfl rfl

end FaceApp
